import Mathlib

/-!
Verification development for the `arx` supervisor service: a shallow
embedding of the node data model, the routing engine
(`supervisor/internal/routing/service.go`), the HTTP handlers
(`internal/api`), and the health-monitor state machine, together with
theorems settling the specification claims.

Go `float64` values are modelled as `ℚ` (the code performs only field
arithmetic on them; distances, which involve `math.Sqrt`, are modelled in
`ℝ`), Go `int` as `Int`, and node status as the `String` the code stores
and compares.
-/

/-- `models.Location`: a 2D coordinate. -/
structure Location where
  x : ℚ
  y : ℚ
deriving DecidableEq

/-- `models.Node`: the node record as used by the routing code and the
handlers (identity modelled as a `Nat` stand-in for the UUID; timestamps,
which no claim touches, are omitted). -/
structure Node where
  id : Nat
  name : String
  locationX : ℚ
  locationY : ℚ
  endpoint : String
  capacity : Int
  status : String
  cpuUsage : ℚ
  memoryUsage : ℚ
  activeConnections : Int
deriving DecidableEq

/-- The Go zero value `models.Node{}` returned by `SelectBestNode` on an
empty slice. -/
def Node.zero : Node :=
  { id := 0, name := "", locationX := 0, locationY := 0, endpoint := "",
    capacity := 0, status := "", cpuUsage := 0, memoryUsage := 0,
    activeConnections := 0 }

/-- `GetHealthyNodes` (query `db/queries/nodes.sql`):
`SELECT * FROM nodes WHERE status = 'healthy'`.  The registry is modelled
as the list of node rows in the query's return order. -/
def GetHealthyNodes (registry : List Node) : List Node :=
  registry.filter (fun n => n.status = "healthy")

/-- `routing.CalculateDistance`:
`math.Sqrt(math.Pow(x1-x2, 2) + math.Pow(y1-y2, 2))`. -/
noncomputable def CalculateDistance (x1 y1 x2 y2 : ℚ) : ℝ :=
  Real.sqrt (((x1 - x2) ^ 2 + (y1 - y2) ^ 2 : ℚ) : ℝ)

/-- `routing.CalculateLoadScore`: fixed weights 0.4/0.3/0.3 over
cpu/100, mem/100 and active_connections/capacity; no clamping and no
guard on `capacity`. -/
def CalculateLoadScore (node : Node) : ℚ :=
  let cpuWeight : ℚ := 4 / 10
  let memWeight : ℚ := 3 / 10
  let connWeight : ℚ := 3 / 10
  let cpuScore := node.cpuUsage / 100
  let memScore := node.memoryUsage / 100
  let connScore := (node.activeConnections : ℚ) / (node.capacity : ℚ)
  cpuWeight * cpuScore + memWeight * memScore + connWeight * connScore

/-- lower-case wrapper `calculateLoadScore` from `service.go`. -/
def calculateLoadScore (node : Node) : ℚ :=
  CalculateLoadScore node

/-- `routing.FindKNearestNodes`: keep the nodes whose status is
`"healthy"`, pair each with its distance to `(x, y)`, sort ascending by
distance (`sort.Slice` on `Distance <`; modelled by `mergeSort` on the
total order `≤` over the real distances), and return the first
`min k len` nodes.  Go's `make([]models.Node, 0, k)` panics for `k < 0`;
the model returns `[]` there, as it does for `k = 0`. -/
noncomputable def FindKNearestNodes (nodes : List Node) (x y : ℚ) (k : Int) : List Node :=
  let nodesWithDistance :=
    (nodes.filter (fun n => n.status = "healthy")).map
      (fun n => (n, CalculateDistance x y n.locationX n.locationY))
  let sorted := nodesWithDistance.mergeSort (fun a b => decide (a.2 ≤ b.2))
  (sorted.take k.toNat).map (fun p => p.1)

/-- Loop body of `routing.SelectBestNode`: keep the incumbent unless the
next node's score is strictly lower (so the first-seen node wins ties). -/
def selectStep (acc : Node × ℚ) (node : Node) : Node × ℚ :=
  let score := calculateLoadScore node
  if score < acc.2 then (node, score) else acc

/-- `routing.SelectBestNode`: zero node on an empty slice; otherwise scan
keeping the strictly lower score (first-seen wins ties). -/
def SelectBestNode (nodes : List Node) : Node :=
  match nodes with
  | [] => Node.zero
  | best :: rest =>
    (rest.foldl selectStep (best, calculateLoadScore best)).1

/-- `routing.Service.RouteRequest`: fetch healthy nodes, take the `k = 3`
nearest, return `nil` (here `none`) when none remain, else the best node.
The Go function's `error` return is only ever a database transport error;
over the pure registry model it cannot occur. -/
noncomputable def Service.RouteRequest (registry : List Node) (coordinates : Location) :
    Option Node :=
  let nodes := GetHealthyNodes registry
  let nearestNodes := FindKNearestNodes nodes coordinates.x coordinates.y 3
  if nearestNodes.length = 0 then none
  else some (SelectBestNode nearestNodes)

/-- Body of `api.RouteRequest` (the wire request): `request_id` and
`coordinates` both carry `binding:"required"`. -/
structure RouteRequestBody where
  requestID : String
  coordinates : Location
deriving DecidableEq

/-- gin's `binding:"required"` on `RouteRequest`: a field fails when it
is its type's zero value (empty string; all-zero struct for
`models.Location`). -/
def bindRouteRequest (req : RouteRequestBody) : Bool :=
  decide (req.requestID ≠ "") && decide (req.coordinates ≠ ⟨0, 0⟩)

/-- The four HTTP outcomes `PublicHandler.RouteRequest` can produce:
400 on binding failure, 500 on a database error, 503 when no node is
selected, 200 with the routed node otherwise. -/
inductive RouteOutcome where
  | badRequest
  | internalError
  | serviceUnavailable
  | routed (node : Node)
deriving DecidableEq

/-- `api.PublicHandler.RouteRequest` (`POST /api/v1/route`): bind the
body (`none` models undecodable JSON), route, and translate the result;
a `nil` selected node becomes 503 Service Unavailable. -/
noncomputable def PublicHandler.RouteRequest (registry : List Node)
    (body : Option RouteRequestBody) : RouteOutcome :=
  match body with
  | none => .badRequest
  | some req =>
    if bindRouteRequest req then
      match Service.RouteRequest registry req.coordinates with
      | none => .serviceUnavailable
      | some node => .routed node
    else .badRequest

/-- Body of `api.CreateNodeRequest`: `name`, `location` and `endpoint`
carry `binding:"required"`; `capacity` carries no binding tag. -/
structure CreateNodeRequest where
  name : String
  location : Location
  endpoint : String
  capacity : Int
deriving DecidableEq

/-- gin's `binding:"required"` on `CreateNodeRequest` (zero values
fail; `capacity` is not checked at all). -/
def bindCreateNode (req : CreateNodeRequest) : Bool :=
  decide (req.name ≠ "") && decide (req.location ≠ ⟨0, 0⟩)
    && decide (req.endpoint ≠ "")

/-- Outcome of `AdminHandler.CreateNode`: 400 on binding failure, else
201 Created with the node. -/
inductive CreateNodeResult where
  | badRequest
  | created (node : Node)
deriving DecidableEq

/-- `api.AdminHandler.CreateNode` (`POST /admin/api/v1/nodes`): bind the
body, replace a `capacity` of exactly 0 by the default 100 (any other
value, negative included, passes through), and build the node with
status `"inactive"`.  `freshId` stands for `uuid.New()`. -/
def AdminHandler.CreateNode (freshId : Nat) (body : Option CreateNodeRequest) :
    CreateNodeResult :=
  match body with
  | none => .badRequest
  | some req =>
    if bindCreateNode req then
      let capacity := if req.capacity = 0 then 100 else req.capacity
      .created
        { id := freshId, name := req.name, locationX := req.location.x,
          locationY := req.location.y, endpoint := req.endpoint,
          capacity := capacity, status := "inactive", cpuUsage := 0,
          memoryUsage := 0, activeConnections := 0 }
    else .badRequest

/-- Node status for the health state machine of spec §4.2. -/
inductive NodeStatus where
  | inactive
  | active
  | healthy
  | unhealthy
deriving DecidableEq

/-- Per-node health-machine state: status plus the two consecutive
probe-outcome counters. -/
structure HealthState where
  status : NodeStatus
  consecutiveFailures : Nat
  consecutiveSuccesses : Nat
deriving DecidableEq

/-- Modelled from the spec: `health.Monitor.checkNode` in the source is a
stub that only broadcasts a mock update and never touches counters or
status, so the probe state machine of §4.2 is modelled from the spec's
words.  On success the success counter increments and the failure counter
resets, and reaching the recovery threshold from `active` or `unhealthy`
makes the node `healthy`; on failure the failure counter increments and
the success counter resets, and reaching the failure threshold makes the
node `unhealthy`. -/
def probeStep (failureThreshold recoveryThreshold : Nat) (s : HealthState)
    (probeSuccess : Bool) : HealthState :=
  if probeSuccess then
    let sc := s.consecutiveSuccesses + 1
    { status :=
        if recoveryThreshold ≤ sc ∧ (s.status = .active ∨ s.status = .unhealthy)
        then .healthy else s.status,
      consecutiveFailures := 0,
      consecutiveSuccesses := sc }
  else
    let fc := s.consecutiveFailures + 1
    { status := if failureThreshold ≤ fc then .unhealthy else s.status,
      consecutiveFailures := fc,
      consecutiveSuccesses := 0 }

/-- Modelled from the spec: run one probe outcome per interval tick, in
order. -/
def probeRun (failureThreshold recoveryThreshold : Nat) (s : HealthState)
    (probes : List Bool) : HealthState :=
  probes.foldl (probeStep failureThreshold recoveryThreshold) s

/-- Scenario node N1 of spec §8: at (0,0), capacity 100, healthy, with
cpu 10, mem 10 and 0 active connections. -/
def N1 : Node :=
  { id := 1, name := "N1", locationX := 0, locationY := 0, endpoint := "e1",
    capacity := 100, status := "healthy", cpuUsage := 10, memoryUsage := 10,
    activeConnections := 0 }

/-- Scenario node N2 of spec §8: at (10,10), capacity 100, healthy, with
cpu 90, mem 90 and 90 active connections. -/
def N2 : Node :=
  { id := 2, name := "N2", locationX := 10, locationY := 10, endpoint := "e2",
    capacity := 100, status := "healthy", cpuUsage := 90, memoryUsage := 90,
    activeConnections := 90 }

/-- An over-admitted healthy node: 20 active connections against a
capacity of 10. -/
def NOver : Node :=
  { id := 3, name := "NOver", locationX := 5, locationY := 5, endpoint := "e3",
    capacity := 10, status := "healthy", cpuUsage := 50, memoryUsage := 50,
    activeConnections := 20 }

/-- A healthy node of arbitrary capacity `c`, used to show that the
routing path never inspects `capacity`. -/
def capNode (c : Int) : Node :=
  { id := 9, name := "Z", locationX := 0, locationY := 0, endpoint := "e9",
    capacity := c, status := "healthy", cpuUsage := 50, memoryUsage := 50,
    activeConnections := 5 }

/-! ### Helper lemmas about the routing pipeline -/

/-- The node kept by the selection fold is the accumulator's node or a
node of the remaining list. -/
lemma foldl_selectStep_mem (l : List Node) : ∀ acc : Node × ℚ,
    (l.foldl selectStep acc).1 = acc.1 ∨ (l.foldl selectStep acc).1 ∈ l := by
  induction l with
  | nil => intro acc; left; rfl
  | cons x xs ih =>
    intro acc
    rw [List.foldl_cons]
    rcases ih (selectStep acc x) with h | h
    · rw [h]
      by_cases hc : calculateLoadScore x < acc.2
      · right
        simp [selectStep, hc]
      · left
        simp [selectStep, hc]
    · right
      exact List.mem_cons_of_mem _ h

/-- `SelectBestNode` of a nonempty list returns a member of the list. -/
lemma selectBestNode_mem {l : List Node} (h : l ≠ []) : SelectBestNode l ∈ l := by
  match l with
  | [] => exact absurd rfl h
  | best :: rest =>
    simp only [SelectBestNode]
    rcases foldl_selectStep_mem rest (best, calculateLoadScore best) with h1 | h1
    · rw [h1]
      exact List.mem_cons_self _ _
    · exact List.mem_cons_of_mem _ h1

/-- Every node returned by `FindKNearestNodes` comes from the input list
and has status `"healthy"`. -/
lemma mem_findKNearestNodes {nodes : List Node} {x y : ℚ} {k : Int} {n : Node}
    (h : n ∈ FindKNearestNodes nodes x y k) :
    n ∈ nodes ∧ n.status = "healthy" := by
  simp only [FindKNearestNodes] at h
  rcases List.mem_map.mp h with ⟨p, hp, rfl⟩
  have hp2 := List.mem_of_mem_take hp
  have hp3 := (List.mergeSort_perm _ _).subset hp2
  rcases List.mem_map.mp hp3 with ⟨m, hm, hmp⟩
  rcases List.mem_filter.mp hm with ⟨hmem, hstat⟩
  rw [← hmp]
  exact ⟨hmem, of_decide_eq_true hstat⟩

/-- The number of candidates returned by `FindKNearestNodes` is
`min k (number of healthy input nodes)`. -/
lemma length_findKNearestNodes (nodes : List Node) (x y : ℚ) (k : Int) :
    (FindKNearestNodes nodes x y k).length
      = min k.toNat (nodes.filter (fun n => n.status = "healthy")).length := by
  simp only [FindKNearestNodes]
  rw [List.length_map, List.length_take, (List.mergeSort_perm _ _).length_eq,
    List.length_map]

/-- With at least one healthy node in the registry, `RouteRequest`
returns `some` node drawn from the healthy set. -/
lemma routeRequest_spec {registry : List Node} (c : Location)
    (h : ∃ n ∈ registry, n.status = "healthy") :
    ∃ n, Service.RouteRequest registry c = some n
      ∧ n ∈ GetHealthyNodes registry ∧ n.status = "healthy" := by
  obtain ⟨n0, hn0, hst⟩ := h
  have hmem : n0 ∈ GetHealthyNodes registry :=
    List.mem_filter.mpr ⟨hn0, by simp [hst]⟩
  have hmem2 :
      n0 ∈ (GetHealthyNodes registry).filter (fun n => n.status = "healthy") :=
    List.mem_filter.mpr ⟨hmem, by simp [hst]⟩
  have hlen : ¬ (FindKNearestNodes (GetHealthyNodes registry) c.x c.y 3).length = 0 := by
    rw [length_findKNearestNodes]
    have hpos :
        0 < ((GetHealthyNodes registry).filter (fun n => n.status = "healthy")).length :=
      List.length_pos.mpr (List.ne_nil_of_mem hmem2)
    have h3 : (3 : Int).toNat = 3 := rfl
    omega
  have hne : FindKNearestNodes (GetHealthyNodes registry) c.x c.y 3 ≠ [] := by
    intro hcontra
    exact hlen (by rw [hcontra]; rfl)
  have heq : Service.RouteRequest registry c
      = some (SelectBestNode (FindKNearestNodes (GetHealthyNodes registry) c.x c.y 3)) := by
    simp only [Service.RouteRequest]
    rw [if_neg hlen]
  have hsel := selectBestNode_mem hne
  obtain ⟨hin, hstat⟩ := mem_findKNearestNodes hsel
  exact ⟨_, heq, hin, hstat⟩

/-- A list permuted with a two-element list is one of its two
arrangements. -/
lemma perm_pair_cases {α : Type} {l : List α} {a b : α} (h : l.Perm [a, b]) :
    l = [a, b] ∨ l = [b, a] := by
  have hlen := h.length_eq
  match l, hlen with
  | [x, y], _ =>
    have hx : x ∈ [a, b] := h.mem_iff.mp (by simp)
    rcases List.mem_pair.mp hx with rfl | rfl
    · left
      have h2 : [y].Perm [b] := h.cons_inv
      simpa using List.perm_singleton.mp h2
    · right
      have hswap : ([a, x] : List α).Perm [x, a] := List.Perm.swap _ _ _
      have h2 : [y].Perm [a] := (h.trans hswap).cons_inv
      simpa using List.perm_singleton.mp h2

/-- Unfolding one probe of a run. -/
lemma probeRun_cons (ft rt : Nat) (s : HealthState) (p : Bool) (l : List Bool) :
    probeRun ft rt s (p :: l) = probeRun ft rt (probeStep ft rt s p) l := rfl

/-- While the failure counter stays strictly below the threshold, a run
of consecutive failed probes leaves the status unchanged and adds the
number of probes to the counter. -/
lemma probeRun_false_below (ft rt : Nat) :
    ∀ (j : Nat) (s : HealthState), s.consecutiveFailures + j < ft →
      (probeRun ft rt s (List.replicate j false)).status = s.status ∧
      (probeRun ft rt s (List.replicate j false)).consecutiveFailures
        = s.consecutiveFailures + j := by
  intro j
  induction j with
  | zero =>
    intro s h
    exact ⟨rfl, rfl⟩
  | succ m ih =>
    intro s h
    rw [List.replicate_succ, probeRun_cons]
    have hstep : probeStep ft rt s false
        = { status := s.status,
            consecutiveFailures := s.consecutiveFailures + 1,
            consecutiveSuccesses := 0 } := by
      have hlt : ¬ ft ≤ s.consecutiveFailures + 1 := by omega
      simp [probeStep, hlt]
    rw [hstep]
    have hpre : s.consecutiveFailures + 1 + m < ft := by omega
    obtain ⟨h1, h2⟩ := ih { status := s.status,
                            consecutiveFailures := s.consecutiveFailures + 1,
                            consecutiveSuccesses := 0 } hpre
    refine ⟨h1, ?_⟩
    rw [h2]
    show s.consecutiveFailures + 1 + m = s.consecutiveFailures + (m + 1)
    omega

/-! ### Claim theorems -/

/-- C1: whenever at least one node with status `"healthy"` is in the
registry, `Service.RouteRequest` returns a node of the healthy set
(`GetHealthyNodes` of the registry at call time); its status is
`"healthy"`, so no `inactive`, `active` or `unhealthy` node is ever
selected. -/
theorem route_selects_member_of_healthy_set (registry : List Node) (c : Location)
    (h : ∃ n ∈ registry, n.status = "healthy") :
    ∃ n, Service.RouteRequest registry c = some n
      ∧ n ∈ GetHealthyNodes registry
      ∧ n.status = "healthy"
      ∧ n.status ≠ "inactive" ∧ n.status ≠ "active" ∧ n.status ≠ "unhealthy" := by
  obtain ⟨n, heq, hmem, hst⟩ := routeRequest_spec c h
  refine ⟨n, heq, hmem, hst, ?_, ?_, ?_⟩ <;> rw [hst] <;> decide

/-- Witness for C1 at the concrete one-node registry `[N1]`. -/
theorem route_selects_member_of_healthy_set_witness :
    (∃ n ∈ [N1], n.status = "healthy")
    ∧ ∃ n, Service.RouteRequest [N1] ⟨0, 0⟩ = some n
        ∧ n ∈ GetHealthyNodes [N1]
        ∧ n.status = "healthy"
        ∧ n.status ≠ "inactive" ∧ n.status ≠ "active" ∧ n.status ≠ "unhealthy" :=
  ⟨⟨N1, by decide⟩,
   route_selects_member_of_healthy_set [N1] ⟨0, 0⟩ ⟨N1, by decide⟩⟩

/-- C2: with no healthy candidate in the registry — in particular with
zero registered nodes — the routing handler answers 503 Service
Unavailable (the total function returns a value, so no panic, and the
pure model has no error path), an outcome distinct from the 400
malformed-request outcome. -/
theorem routeHandler_unavailable_distinct (registry : List Node)
    (req : RouteRequestBody) (hbind : bindRouteRequest req = true)
    (hnone : GetHealthyNodes registry = []) :
    PublicHandler.RouteRequest registry (some req) = .serviceUnavailable
    ∧ RouteOutcome.serviceUnavailable ≠ RouteOutcome.badRequest
    ∧ RouteOutcome.serviceUnavailable ≠ RouteOutcome.internalError := by
  have hroute : Service.RouteRequest registry req.coordinates = none := by
    simp only [Service.RouteRequest, hnone]
    simp [FindKNearestNodes]
  refine ⟨?_, by simp, by simp⟩
  simp [PublicHandler.RouteRequest, hbind, hroute]

/-- Witness for C2 at the empty registry. -/
theorem routeHandler_unavailable_distinct_witness :
    (bindRouteRequest ⟨"r1", ⟨1, 1⟩⟩ = true ∧ GetHealthyNodes [] = [])
    ∧ PublicHandler.RouteRequest [] (some ⟨"r1", ⟨1, 1⟩⟩) = .serviceUnavailable
    ∧ RouteOutcome.serviceUnavailable ≠ RouteOutcome.badRequest
    ∧ RouteOutcome.serviceUnavailable ≠ RouteOutcome.internalError :=
  ⟨⟨by decide, rfl⟩,
   routeHandler_unavailable_distinct [] ⟨"r1", ⟨1, 1⟩⟩ (by decide) rfl⟩

/-- C4: the load score is exactly
`0.4*(cpu/100) + 0.3*(mem/100) + 0.3*(active_connections/capacity)`,
the three default weights sum to 1, and the connection term is not
clamped: as soon as `active_connections` exceeds a positive `capacity`
it exceeds 1. -/
theorem calculateLoadScore_formula_unclamped (node : Node) :
    CalculateLoadScore node
        = (4 / 10 : ℚ) * (node.cpuUsage / 100)
          + (3 / 10 : ℚ) * (node.memoryUsage / 100)
          + (3 / 10 : ℚ) * ((node.activeConnections : ℚ) / (node.capacity : ℚ))
      ∧ (4 / 10 : ℚ) + 3 / 10 + 3 / 10 = 1
      ∧ (0 < node.capacity → node.capacity < node.activeConnections →
          1 < (node.activeConnections : ℚ) / (node.capacity : ℚ)) := by
  refine ⟨rfl, by norm_num, ?_⟩
  intro hpos hlt
  have hposQ : (0 : ℚ) < (node.capacity : ℚ) := by exact_mod_cast hpos
  have hltQ : (node.capacity : ℚ) < (node.activeConnections : ℚ) := by
    exact_mod_cast hlt
  exact (one_lt_div hposQ).mpr hltQ

/-- Witness for C4 at the over-admitted node `NOver` (20 connections,
capacity 10). -/
theorem calculateLoadScore_formula_unclamped_witness :
    (0 < NOver.capacity ∧ NOver.capacity < NOver.activeConnections)
    ∧ 1 < (NOver.activeConnections : ℚ) / (NOver.capacity : ℚ) :=
  ⟨⟨by decide, by decide⟩,
   (calculateLoadScore_formula_unclamped NOver).2.2 (by decide) (by decide)⟩

/-- C8: the load score is monotone in `active_connections`: with cpu,
memory and a positive capacity held fixed, more connections never lower
the score. -/
theorem loadScore_monotone_in_connections (n : Node) (c1 c2 : Int)
    (hcap : 0 < n.capacity) (hc : c1 ≤ c2) :
    CalculateLoadScore { n with activeConnections := c1 }
      ≤ CalculateLoadScore { n with activeConnections := c2 } := by
  simp only [CalculateLoadScore]
  have hcapQ : (0 : ℚ) < (n.capacity : ℚ) := by exact_mod_cast hcap
  have hcQ : (c1 : ℚ) ≤ (c2 : ℚ) := by exact_mod_cast hc
  have hdiv : (c1 : ℚ) / (n.capacity : ℚ) ≤ (c2 : ℚ) / (n.capacity : ℚ) :=
    (div_le_div_iff_of_pos_right hcapQ).mpr hcQ
  have h30 : (0 : ℚ) < 3 / 10 := by norm_num
  nlinarith [hdiv]

/-- Witness for C8 at `N1` with 1 ≤ 2 connections. -/
theorem loadScore_monotone_in_connections_witness :
    (0 < N1.capacity ∧ (1 : Int) ≤ 2)
    ∧ CalculateLoadScore { N1 with activeConnections := 1 }
        ≤ CalculateLoadScore { N1 with activeConnections := 2 } :=
  ⟨⟨by decide, by decide⟩,
   loadScore_monotone_in_connections N1 1 2 (by decide) (by decide)⟩

/-- C7: (spec-modelled state machine) with failure threshold `ft > 0`
and a fresh failure counter, `ft` consecutive failed probes drive the
status to `unhealthy`; `ft - 1` consecutive failures leave the status
exactly as it was (so no transition to `unhealthy`); and any successful
probe resets the consecutive-failure counter to 0. -/
theorem probe_failure_threshold_transitions (ft rt : Nat) (s : HealthState)
    (hft : 0 < ft) (h0 : s.consecutiveFailures = 0)
    (hs : s.status ≠ .unhealthy) :
    (probeRun ft rt s (List.replicate ft false)).status = .unhealthy
    ∧ (probeRun ft rt s (List.replicate (ft - 1) false)).status = s.status
    ∧ (probeRun ft rt s (List.replicate (ft - 1) false)).status ≠ .unhealthy
    ∧ (∀ s2 : HealthState, (probeStep ft rt s2 true).consecutiveFailures = 0) := by
  have hpre : s.consecutiveFailures + (ft - 1) < ft := by omega
  obtain ⟨hstat, hfail⟩ := probeRun_false_below ft rt (ft - 1) s hpre
  refine ⟨?_, hstat, by rw [hstat]; exact hs, fun s2 => by simp [probeStep]⟩
  have hsplit : List.replicate ft false
      = List.replicate (ft - 1) false ++ [false] := by
    rw [← List.replicate_succ']
    congr 1
    omega
  rw [hsplit]
  have happ : probeRun ft rt s (List.replicate (ft - 1) false ++ [false])
      = probeStep ft rt (probeRun ft rt s (List.replicate (ft - 1) false)) false := by
    simp [probeRun, List.foldl_append]
  rw [happ]
  have hth : ft ≤ (probeRun ft rt s (List.replicate (ft - 1) false)).consecutiveFailures + 1 := by
    rw [hfail]
    omega
  simp [probeStep, hth]

/-- Witness for C7 with failure threshold 3 and a healthy start state. -/
theorem probe_failure_threshold_transitions_witness :
    (0 < 3 ∧ (⟨.healthy, 0, 0⟩ : HealthState).consecutiveFailures = 0
      ∧ (⟨.healthy, 0, 0⟩ : HealthState).status ≠ .unhealthy)
    ∧ (probeRun 3 2 ⟨.healthy, 0, 0⟩ (List.replicate 3 false)).status = .unhealthy
    ∧ (probeRun 3 2 ⟨.healthy, 0, 0⟩ (List.replicate (3 - 1) false)).status
        = (⟨.healthy, 0, 0⟩ : HealthState).status
    ∧ (probeRun 3 2 ⟨.healthy, 0, 0⟩ (List.replicate (3 - 1) false)).status ≠ .unhealthy
    ∧ (∀ s2 : HealthState, (probeStep 3 2 s2 true).consecutiveFailures = 0) :=
  ⟨⟨by decide, rfl, by decide⟩,
   probe_failure_threshold_transitions 3 2 ⟨.healthy, 0, 0⟩ (by decide) rfl (by decide)⟩

/-- C6 counterexample: a registration request with capacity −5 (nonempty
name and endpoint) does not fail validation; the handler returns 201
Created with the negative capacity stored unmodified, refuting both
"capacity ≤ 0 fails with ValidationError and creates no node" and the
registry invariant `capacity > 0`. -/
theorem createNode_negative_capacity_created :
    AdminHandler.CreateNode 7 (some ⟨"n", ⟨1, 2⟩, "e", -5⟩)
      = .created { id := 7, name := "n", locationX := 1, locationY := 2,
                   endpoint := "e", capacity := -5, status := "inactive",
                   cpuUsage := 0, memoryUsage := 0, activeConnections := 0 }
    ∧ ¬ (-5 : Int) > 0 := by
  refine ⟨?_, by decide⟩
  rfl

/-- C6 amended: an empty name or an empty endpoint fails binding
validation (400, no node created); a capacity of exactly 0 is replaced
by the default 100; any other capacity — negative included — is stored
unmodified; hence every created node has nonzero (but not necessarily
positive) capacity. -/
theorem createNode_validation_behavior (freshId : Nat) (req : CreateNodeRequest) :
    (req.name = "" → AdminHandler.CreateNode freshId (some req) = .badRequest)
    ∧ (req.endpoint = "" → AdminHandler.CreateNode freshId (some req) = .badRequest)
    ∧ (req.capacity = 0 → ∀ node,
        AdminHandler.CreateNode freshId (some req) = .created node →
        node.capacity = 100)
    ∧ (req.capacity ≠ 0 → ∀ node,
        AdminHandler.CreateNode freshId (some req) = .created node →
        node.capacity = req.capacity)
    ∧ (∀ node, AdminHandler.CreateNode freshId (some req) = .created node →
        node.capacity ≠ 0) := by
  refine ⟨?_, ?_, ?_, ?_, ?_⟩
  · intro hname
    simp [AdminHandler.CreateNode, bindCreateNode, hname]
  · intro hend
    simp [AdminHandler.CreateNode, bindCreateNode, hend]
  · intro hcap node hnode
    by_cases hbind : bindCreateNode req = true
    · simp only [AdminHandler.CreateNode, if_pos hbind] at hnode
      cases hnode
      simp [hcap]
    · simp [AdminHandler.CreateNode, hbind] at hnode
  · intro hcap node hnode
    by_cases hbind : bindCreateNode req = true
    · simp only [AdminHandler.CreateNode, if_pos hbind] at hnode
      cases hnode
      simp [hcap]
    · simp [AdminHandler.CreateNode, hbind] at hnode
  · intro node hnode
    by_cases hbind : bindCreateNode req = true
    · simp only [AdminHandler.CreateNode, if_pos hbind] at hnode
      cases hnode
      by_cases hcap : req.capacity = 0 <;> simp [hcap]
    · simp [AdminHandler.CreateNode, hbind] at hnode

/-- Witness for the amended C6: an empty-name request is rejected, and a
valid request with capacity 0 yields the default capacity 100. -/
theorem createNode_validation_behavior_witness :
    (("" : String) = ""
      ∧ AdminHandler.CreateNode 1 (some ⟨"", ⟨1, 1⟩, "e", 5⟩) = .badRequest)
    ∧ ((0 : Int) = 0
      ∧ ∀ node, AdminHandler.CreateNode 2 (some ⟨"n", ⟨1, 1⟩, "e", 0⟩) = .created node →
          node.capacity = 100) :=
  ⟨⟨rfl, (createNode_validation_behavior 1 ⟨"", ⟨1, 1⟩, "e", 5⟩).1 rfl⟩,
   ⟨rfl, (createNode_validation_behavior 2 ⟨"n", ⟨1, 1⟩, "e", 0⟩).2.2.1 rfl⟩⟩

/-- C10: capacity is never validated or guarded along the paths that
feed `CalculateLoadScore`: admin registration stores any nonzero
capacity unmodified (so negative capacities pass through; only exactly 0
is replaced by the default 100), and the routing path selects and scores
a healthy node whatever its capacity — a capacity-0 record reaches the
unguarded `active_connections / capacity` division. -/
theorem capacity_unchecked_on_routing_path :
    (∀ (freshId : Nat) (req : CreateNodeRequest),
        bindCreateNode req = true → req.capacity ≠ 0 →
        AdminHandler.CreateNode freshId (some req)
          = .created { id := freshId, name := req.name,
                       locationX := req.location.x, locationY := req.location.y,
                       endpoint := req.endpoint, capacity := req.capacity,
                       status := "inactive", cpuUsage := 0, memoryUsage := 0,
                       activeConnections := 0 })
    ∧ (∀ (freshId : Nat) (req : CreateNodeRequest),
        bindCreateNode req = true → req.capacity = 0 →
        AdminHandler.CreateNode freshId (some req)
          = .created { id := freshId, name := req.name,
                       locationX := req.location.x, locationY := req.location.y,
                       endpoint := req.endpoint, capacity := 100,
                       status := "inactive", cpuUsage := 0, memoryUsage := 0,
                       activeConnections := 0 })
    ∧ (∀ (c : Int) (coords : Location),
        Service.RouteRequest [capNode c] coords = some (capNode c)) := by
  refine ⟨?_, ?_, ?_⟩
  · intro freshId req hbind hcap
    simp [AdminHandler.CreateNode, hbind, hcap]
  · intro freshId req hbind hcap
    simp [AdminHandler.CreateNode, hbind, hcap]
  · intro c coords
    have h : ∃ n ∈ [capNode c], n.status = "healthy" := ⟨capNode c, by simp, rfl⟩
    obtain ⟨n, heq, hmem, _⟩ := routeRequest_spec coords h
    have hn : n = capNode c := by
      simpa [GetHealthyNodes, capNode] using hmem
    rw [heq, hn]

/-- Witness for C10: capacity −5 is stored as −5, and a healthy node
with capacity 0 is still the routing result. -/
theorem capacity_unchecked_on_routing_path_witness :
    (bindCreateNode ⟨"n", ⟨1, 2⟩, "e", -5⟩ = true ∧ (-5 : Int) ≠ 0)
    ∧ AdminHandler.CreateNode 4 (some ⟨"n", ⟨1, 2⟩, "e", -5⟩)
        = .created { id := 4, name := "n", locationX := 1, locationY := 2,
                     endpoint := "e", capacity := -5, status := "inactive",
                     cpuUsage := 0, memoryUsage := 0, activeConnections := 0 }
    ∧ Service.RouteRequest [capNode 0] ⟨0, 0⟩ = some (capNode 0) :=
  ⟨⟨by decide, by decide⟩,
   capacity_unchecked_on_routing_path.1 4 ⟨"n", ⟨1, 2⟩, "e", -5⟩ (by decide) (by decide),
   capacity_unchecked_on_routing_path.2.2 0 ⟨0, 0⟩⟩

/-- C5 counterexample: `FindKNearestNodes` with `k = 0` over a registry
holding one healthy node returns no candidate at all — `k ≤ 0` is not
treated as `k = 1`, and the routing outcome would be Unavailable despite
a healthy node being present. -/
theorem findKNearestNodes_zero_k_empty :
    FindKNearestNodes [N1] 0 0 0 = [] ∧ N1.status = "healthy" := by
  constructor
  · simp [FindKNearestNodes]
  · rfl

/-- C5 amended: there is no clamp of `k ≤ 0` to 1 — `k = 0` yields an
empty candidate list (and a negative `k` panics in Go's `make`, which
the model also renders as the empty list); `k` at least the number of
healthy nodes considers all of them; and the engine's own routing calls,
which always use `k = 3`, are never Unavailable while a healthy node
exists. -/
theorem findKNearestNodes_k_edge_cases :
    (∀ (nodes : List Node) (x y : ℚ), FindKNearestNodes nodes x y 0 = [])
    ∧ (∀ (nodes : List Node) (x y : ℚ) (k : Int),
        ((nodes.filter (fun n => n.status = "healthy")).length : Int) ≤ k →
        (FindKNearestNodes nodes x y k).Perm
          (nodes.filter (fun n => n.status = "healthy")))
    ∧ (∀ (registry : List Node) (c : Location),
        (∃ n ∈ registry, n.status = "healthy") →
        Service.RouteRequest registry c ≠ none) := by
  refine ⟨?_, ?_, ?_⟩
  · intro nodes x y
    simp [FindKNearestNodes]
  · intro nodes x y k hk
    simp only [FindKNearestNodes]
    have hlen : (((nodes.filter (fun n => n.status = "healthy")).map
        (fun n => (n, CalculateDistance x y n.locationX n.locationY))).mergeSort
          (fun a b => decide (a.2 ≤ b.2))).length ≤ k.toNat := by
      rw [(List.mergeSort_perm _ _).length_eq, List.length_map]
      omega
    rw [List.take_of_length_le hlen]
    have hperm := (List.mergeSort_perm
      ((nodes.filter (fun n => n.status = "healthy")).map
        (fun n => (n, CalculateDistance x y n.locationX n.locationY)))
      (fun a b => decide (a.2 ≤ b.2))).map (fun p => p.1)
    simpa [List.map_map, Function.comp_def] using hperm
  · intro registry c h
    obtain ⟨n, heq, _, _⟩ := routeRequest_spec c h
    rw [heq]
    simp

/-- Witness for the amended C5: with one healthy node, `k = 5 > 1`
considers it, and the `k = 3` routing call is not Unavailable. -/
theorem findKNearestNodes_k_edge_cases_witness :
    ((([N1].filter (fun n => n.status = "healthy")).length : Int) ≤ 5
      ∧ (FindKNearestNodes [N1] 0 0 5).Perm
          ([N1].filter (fun n => n.status = "healthy")))
    ∧ ((∃ n ∈ [N1], n.status = "healthy")
      ∧ Service.RouteRequest [N1] ⟨2, 3⟩ ≠ none) :=
  ⟨⟨by decide, findKNearestNodes_k_edge_cases.2.1 [N1] 0 0 5 (by decide)⟩,
   ⟨⟨N1, by decide⟩, findKNearestNodes_k_edge_cases.2.2 [N1] ⟨2, 3⟩ ⟨N1, by decide⟩⟩⟩

/-- C3: in the two-node scenario of spec §8 — N1 at (0,0), capacity 100,
cpu 10, mem 10, 0 connections; N2 at (10,10), capacity 100, cpu 90,
mem 90, 90 connections — routing the coordinate (1,1) with `k = 2`
selects N1 (whichever way the distance sort orders the two candidates,
N1's load score 0.07 beats N2's 0.9). -/
theorem scenario_route_selects_N1 :
    SelectBestNode (FindKNearestNodes [N1, N2] 1 1 2) = N1 := by
  have hpairs : ([N1, N2].filter (fun n => n.status = "healthy")).map
      (fun n => (n, CalculateDistance 1 1 n.locationX n.locationY))
      = [(N1, CalculateDistance 1 1 N1.locationX N1.locationY),
         (N2, CalculateDistance 1 1 N2.locationX N2.locationY)] := by
    simp [N1, N2]
  have ht : (2 : Int).toNat = 2 := rfl
  simp only [FindKNearestNodes]
  rw [hpairs]
  rcases perm_pair_cases (List.mergeSort_perm
      [(N1, CalculateDistance 1 1 N1.locationX N1.locationY),
       (N2, CalculateDistance 1 1 N2.locationX N2.locationY)]
      (fun a b => decide (a.2 ≤ b.2))) with he | he
  all_goals
    rw [he]
    norm_num [ht, SelectBestNode, selectStep, calculateLoadScore,
      CalculateLoadScore, N1, N2]
